import Mathlib

/-!
Verification of the DS-News-Aggregator scoring-and-filtering pipeline.

Shallow embedding of the Python core (src/collectors/content_filter.py,
src/processors/pipeline.py, src/config.py) into Lean:
  * articles are records over the fields the core reads;
  * `ContentFilter.calculate_score` becomes `calculateScore`;
  * `ContentFilter._is_duplicate` / `remove_duplicates` become
    `isDuplicate` / `removeDuplicates` (with a faithful model of
    difflib's `SequenceMatcher.ratio`);
  * `ContentFilter._is_recent_article` becomes `isRecentArticle`
    (with an explicit model of the ISO-8601 subset of
    `datetime.fromisoformat` exercised by the feed data);
  * `ContentFilter._has_ds_ml_keywords` becomes `hasDsMlKeywords`;
  * `ContentFilter.get_top_articles` becomes `getTopArticles`;
  * `DSNewsPipeline.step2_filter_articles` becomes `step2FilterArticles`;
  * `DSNewsPipeline.run_full_pipeline` becomes `runFullPipeline`,
    with the external translation/summarization stages as parameters.

Python machine details that matter are handled explicitly: scores are
exact integers (all constants are integers, so float arithmetic is
exact); the similarity comparison `ratio >= 0.8` and the quota
computation `int(total * ratio)` are justified as exact rational
comparisons in comments at their definitions.
-/

namespace DSNews

/-- An article record, restricted to the fields read by the
scoring-and-filtering core (`title`, `content`, `url`, `source_id`,
`published`, `score`).  Fields the core never reads (`id`, `tags`,
`needs_translation`, ...) are omitted; dictionary equality used by
`list.remove` is modelled as equality of these fields. -/
structure Article where
  title : String
  content : String
  url : String
  sourceId : String
  published : String
  score : Int
deriving DecidableEq, Repr

/-- Runtime-configurable knobs of `config.Config` read by the core,
with the defaults from src/config.py. -/
structure Config where
  minScoreThreshold : Int := 70
  maxArticleAgeDays : Int := 60
  minPublishYear : Nat := 2025
  finalArticleCount : Nat := 20
deriving Repr

/-- The default configuration (all defaults of `config.Config`). -/
def defaultConfig : Config := {}

/-! ### Keyword tables (src/config.py class constants) -/

/-- `Config.BASE_SCORE` — global default base score. -/
def baseScoreDefault : Int := 50

/-- `Config.PRIORITY_KEYWORDS` in Python dict insertion order. -/
def priorityKeywords : List (String × Int) :=
  [("방법", 15), ("가이드", 20), ("분석", 15), ("비교", 15), ("구현", 20),
   ("LLM", 20), ("시계열", 15), ("method", 15), ("guide", 20), ("analysis", 15),
   ("comparison", 15), ("implementation", 20), ("time series", 15)]

/-- `Config.EXCLUDE_PATTERNS`. -/
def excludePatterns : List String :=
  ["추천해주세요", "어떻게 생각", "감탄사", "recommend", "what do you think"]

/-- `Config.SOURCE_BASE_SCORES`. -/
def sourceBaseScores : List (String × Int) :=
  [("techcrunch_ai", 100), ("mit_tech_review", 110), ("wired_ai", 105), ("tech42", 85),
   ("towards_data_science", 80), ("analytics_vidhya", 75), ("kdnuggets", 75),
   ("distill", 90), ("huggingface_blog", 85),
   ("google_developers", 70), ("aws_ml", 75), ("microsoft_ai", 75),
   ("openai_blog", 90), ("nvidia_blog", 75)]

/-- `Config.DS_KEYWORDS`. -/
def dsKeywords : List String :=
  ["machine learning", "deep learning", "artificial intelligence", "neural network",
   "data science", "data analysis", "statistics", "statistical learning",
   "llm", "large language model", "gpt", "bert", "transformer", "chatgpt",
   "generative ai", "natural language processing", "nlp", "language model",
   "computer vision", "reinforcement learning", "supervised learning", "unsupervised learning",
   "classification", "regression", "clustering", "dimensionality reduction",
   "feature engineering", "model training", "hyperparameter", "optimization",
   "tensorflow", "pytorch", "keras", "scikit-learn", "pandas", "numpy",
   "huggingface", "openai api", "langchain", "vector database",
   "big data", "data mining", "predictive analytics", "time series",
   "data visualization", "business intelligence", "etl", "data pipeline",
   "머신러닝", "딥러닝", "인공지능", "데이터사이언스", "데이터분석",
   "LLM", "대형언어모델", "생성형AI", "자연어처리", "컴퓨터비전",
   "강화학습", "지도학습", "비지도학습", "분류", "회귀", "클러스터링",
   "특성공학", "모델훈련", "하이퍼파라미터", "최적화", "시계열",
   "빅데이터", "데이터마이닝", "예측분석", "데이터시각화", "비즈니스인텔리전스"]

/-- `Config.EXCLUDED_TECH_KEYWORDS`. -/
def excludedTechKeywords : List String :=
  ["web development", "frontend", "backend", "javascript", "react", "vue", "angular",
   "css", "html", "mobile app", "ios", "android", "swift", "kotlin",
   "database design", "sql optimization", "devops", "kubernetes", "docker",
   "microservices", "api design", "system design", "networking",
   "웹개발", "프론트엔드", "백엔드", "모바일앱", "데이터베이스설계",
   "시스템설계", "네트워킹", "쿠버네티스", "도커", "마이크로서비스"]

/-- The hard-coded `core_keywords` list local to
`ContentFilter._has_ds_ml_keywords`. -/
def coreKeywords : List String :=
  ["machine learning", "deep learning", "artificial intelligence", "neural network",
   "data science", "llm", "large language model", "gpt", "transformer",
   "computer vision", "natural language processing", "nlp",
   "머신러닝", "딥러닝", "인공지능", "llm", "대형언어모델", "생성형ai",
   "자연어처리", "컴퓨터비전", "데이터사이언스"]

/-! ### Scorer (`ContentFilter.calculate_score`) -/

/-- Python `str.lower()` on the character content of a string.
`Char.toLower` lowers exactly the ASCII range; the corpus handled by
this system is ASCII + Hangul, and Hangul has no case, so this agrees
with Python on every string manipulated here. -/
def lowerStr (s : String) : List Char := s.data.map Char.toLower

/-- Python `kw.lower() in text` — case-lowered substring containment
of a keyword in an (already lowered) text. -/
def containsKw (text : List Char) (kw : String) : Bool :=
  decide (lowerStr kw <:+: text)

/-- `ContentFilter.calculate_score(title, content, source_id)`:
base score from `SOURCE_BASE_SCORES` (default `BASE_SCORE`), one bonus
per matching priority keyword, −30 per matching exclusion pattern,
clamped below by 0.  All constants are integers, so the Python float
arithmetic is exact and is modelled on `Int`. -/
def calculateScore (title content sourceId : String) : Int :=
  let base := ((sourceBaseScores.find? (fun kv => kv.1 == sourceId)).map (fun kv => kv.2)).getD
    baseScoreDefault
  let fullText := lowerStr (title ++ " " ++ content)
  let s1 := priorityKeywords.foldl
    (fun acc kb => if containsKw fullText kb.1 then acc + kb.2 else acc) base
  let s2 := excludePatterns.foldl
    (fun acc p => if containsKw fullText p then acc - 30 else acc) s1
  max 0 s2

/-! ### Recency filter (`ContentFilter._is_recent_article`)

`datetime.fromisoformat` is modelled on the ISO-8601 subset produced by
the collectors and exercised here: `YYYY-MM-DD`, optionally followed by
`THH:MM:SS`, optionally followed by a `±HH:MM` offset (plus the 'Z'
normalization performed by `_is_recent_article` itself).  Strings
outside this subset parse to `none`, exactly as the `ValueError` branch
of the Python code returns `False`. -/

/-- A parsed timestamp (proleptic Gregorian).  `tzOffsetMinutes = none`
models a naive `datetime` (no `tzinfo`). -/
structure PubDate where
  year : Nat
  month : Nat
  day : Nat
  hour : Nat
  minute : Nat
  second : Nat
  tzOffsetMinutes : Option Int
deriving DecidableEq, Repr

/-- Gregorian leap-year rule (as in Python's `calendar`/`datetime`). -/
def isLeapYear (y : Nat) : Bool :=
  y % 4 = 0 && (y % 100 ≠ 0 || y % 400 = 0)

/-- Number of days of month `m` in year `y`. -/
def daysInMonth (y m : Nat) : Nat :=
  if m = 2 then (if isLeapYear y then 29 else 28)
  else if m = 4 ∨ m = 6 ∨ m = 9 ∨ m = 11 then 30
  else 31

/-- Days in year `y` strictly before month `m`. -/
def daysBeforeMonth (y m : Nat) : Nat :=
  (List.range (m - 1)).foldl (fun acc i => acc + daysInMonth y (i + 1)) 0

/-- Proleptic-Gregorian day number of a civil date (day 1 ≡ 0001-01-01),
the same ordinal `datetime.toordinal` uses; only differences of these
values are ever consumed. -/
def rataDie (y m d : Nat) : Nat :=
  365 * (y - 1) + (y - 1) / 4 - (y - 1) / 100 + (y - 1) / 400 + daysBeforeMonth y m + d

/-- Absolute UTC second count of a timestamp; a missing offset (naive
timestamp) contributes 0, i.e. is read as UTC — exactly the
`pub_date.replace(tzinfo=timezone.utc)` normalization in the code. -/
def utcSeconds (p : PubDate) : Int :=
  (rataDie p.year p.month p.day : Int) * 86400
    + p.hour * 3600 + p.minute * 60 + p.second
    - (p.tzOffsetMinutes.getD 0) * 60

/-- Value of an ASCII digit, `none` otherwise. -/
def digit? (c : Char) : Option Nat :=
  if c.isDigit then some (c.toNat - 48) else none

/-- Two-digit number. -/
def num2 (a b : Char) : Option Nat := do
  let x ← digit? a
  let y ← digit? b
  pure (10 * x + y)

/-- Four-digit number. -/
def num4 (a b c d : Char) : Option Nat := do
  let x ← num2 a b
  let y ← num2 c d
  pure (100 * x + y)

/-- `datetime.fromisoformat` on the modelled subset: validates month,
day (against the month length), time fields and offset range, like the
CPython parser; anything else raises `ValueError`, i.e. `none`. -/
def isoparseChars : List Char → Option PubDate
  | y1 :: y2 :: y3 :: y4 :: '-' :: m1 :: m2 :: '-' :: d1 :: d2 :: rest => do
    let y ← num4 y1 y2 y3 y4
    let m ← num2 m1 m2
    let d ← num2 d1 d2
    if 1 ≤ y ∧ 1 ≤ m ∧ m ≤ 12 ∧ 1 ≤ d ∧ d ≤ daysInMonth y m then
      match rest with
      | [] => pure ⟨y, m, d, 0, 0, 0, none⟩
      | 'T' :: h1 :: h2 :: ':' :: mi1 :: mi2 :: ':' :: s1 :: s2 :: rest2 => do
        let h ← num2 h1 h2
        let mi ← num2 mi1 mi2
        let s ← num2 s1 s2
        if h ≤ 23 ∧ mi ≤ 59 ∧ s ≤ 59 then
          match rest2 with
          | [] => pure ⟨y, m, d, h, mi, s, none⟩
          | sg :: o1 :: o2 :: ':' :: o3 :: o4 :: [] => do
            let oh ← num2 o1 o2
            let om ← num2 o3 o4
            if (sg = '+' ∨ sg = '-') ∧ oh ≤ 23 ∧ om ≤ 59 then
              let mins : Int := oh * 60 + om
              pure ⟨y, m, d, h, mi, s, some (if sg = '+' then mins else -mins)⟩
            else none
          | _ => none
        else none
      | _ => none
    else none
  | _ => none

/-- Python `s.replace('Z', '+00:00')` (single-character pattern, all
occurrences). -/
def replaceZ (s : String) : List Char :=
  s.data.flatMap (fun c => if c = 'Z' then "+00:00".data else [c])

/-- The date-parsing branch structure of `_is_recent_article`:
a string ending in `+00:00` is parsed as is (the Python
`replace('+00:00','+00:00')` is a no-op); a string containing `T` has
`Z` normalized to `+00:00` first; otherwise it is parsed directly. -/
def parsePublished (s : String) : Option PubDate :=
  if "+00:00".data <:+ s.data then isoparseChars s.data
  else if 'T' ∈ s.data then isoparseChars (replaceZ s)
  else isoparseChars s.data

/-- `ContentFilter._is_recent_article(article)`, with the current time
passed explicitly as a UTC second count.  `(now - pub_date).days` is
`timedelta.days`, i.e. the floor division of the signed second
difference by 86400 (`Int.fdiv`). -/
def isRecentArticle (cfg : Config) (nowSec : Int) (a : Article) : Bool :=
  if a.published = "" then false
  else
    match parsePublished a.published with
    | none => false
    | some d =>
      let ageDays : Int := Int.fdiv (nowSec - utcSeconds d) 86400
      if d.year < cfg.minPublishYear then false
      else if ageDays > cfg.maxArticleAgeDays then false
      else true

/-! ### Keyword gate (`ContentFilter._has_ds_ml_keywords`) -/

/-- The combined lower-cased text `title.lower() + ' ' + content.lower()`
the keyword gate scans. -/
def gateText (a : Article) : List Char :=
  (a.title.data.map Char.toLower) ++ ' ' :: (a.content.data.map Char.toLower)

/-- `ContentFilter._has_ds_ml_keywords(article, strict_mode)`: in
strict mode, reject on any excluded tech keyword, then reject unless a
core AI/ML keyword is present, then accept iff some `DS_KEYWORDS` entry
is present (the Python early-return loops are exactly `List.any`). -/
def hasDsMlKeywords (strictMode : Bool) (a : Article) : Bool :=
  let fullText := gateText a
  if strictMode then
    if excludedTechKeywords.any (fun k => containsKw fullText k) then false
    else if !(coreKeywords.any (fun k => containsKw fullText k)) then false
    else dsKeywords.any (fun k => containsKw fullText k)
  else dsKeywords.any (fun k => containsKw fullText k)

/-- An article whose text contains a supplementary `DS_KEYWORDS` entry
("statistics") but no core keyword and no excluded keyword. -/
def exC4 : Article :=
  { title := "statistics", content := "", url := "u", sourceId := "s",
    published := "2025-09-01", score := 80 }

/-! ### Duplicate detection (`ContentFilter._is_duplicate`)

Title similarity is difflib's `SequenceMatcher(None, t1, t2).ratio()`.
The titles compared here are far shorter than 200 characters, so
difflib's autojunk heuristic never fires and the junk set is empty;
with an empty junk set the post-processing `while` loops of
`find_longest_match` cannot extend the already-maximal block found by
the dynamic programme, so the model is the pure
longest-matching-block recursion. -/

/-- Hangul syllable block (가-힣). -/
def isHangul (c : Char) : Bool :=
  0xAC00 ≤ c.toNat && c.toNat ≤ 0xD7A3

/-- A character kept by the normalization `re.sub(r'[^\w\s가-힣]', '', t)`:
word characters, whitespace, Hangul.  (Python's `\w` additionally
covers non-ASCII letters of other scripts, which do not occur in the
corpus handled here.) -/
def isKeptChar (c : Char) : Bool :=
  c.isAlphanum || c = '_' || c.isWhitespace || isHangul c

/-- The normalized title used for similarity:
`re.sub(r'[^\w\s가-힣]', '', title.lower())`. -/
def normTitle (s : String) : List Char :=
  (s.data.map Char.toLower).filter isKeptChar

/-- One row of the `find_longest_match` dynamic programme: scanning
row `i` (character `ai` of `a`), `prevs` is the previous row prefixed
with a 0 sentinel so that its head at column `j` is `j2len[j-1]`; the
produced row holds the length of the common run ending at `(i, j)`,
and `best` is updated (strictly, first-encountered wins, as in
CPython's `if k > bestsize`) to `(i-k+1, j-k+1, k)`. -/
def simRowGo : Char → Nat → Nat → List Char → List Nat → (Nat × Nat × Nat) →
    List Nat × (Nat × Nat × Nat)
  | _, _, _, [], _, best => ([], best)
  | ai, i, j, c :: bs, prevs, best =>
    let p := prevs.headD 0
    let k := if c = ai then p + 1 else 0
    let best' := if best.2.2 < k then (i + 1 - k, j + 1 - k, k) else best
    let out := simRowGo ai i (j + 1) bs prevs.tail best'
    (k :: out.1, out.2)

/-- All rows of the `find_longest_match` dynamic programme. -/
def findBestGo : List Char → Nat → List Char → List Nat → (Nat × Nat × Nat) →
    Nat × Nat × Nat
  | [], _, _, _, best => best
  | ai :: arest, i, b, prev, best =>
    let rb := simRowGo ai i 0 b (0 :: prev) best
    findBestGo arest (i + 1) b rb.1 rb.2

/-- `SequenceMatcher.find_longest_match` over the whole strings with an
empty junk set: the longest matching block `(i, j, size)`, earliest
`i` then earliest `j` on ties. -/
def findLongestMatch (a b : List Char) : Nat × Nat × Nat :=
  findBestGo a 0 b [] (0, 0, 0)

/-- Total size of `get_matching_blocks`: recursively take the longest
match and recurse on the pieces to its left and right.  The fuel is
the recursion depth; every recursive call strictly shrinks `a`
(the found block has `size ≥ 1` and `i + size ≤ |a|`), so
`|a| + 1` units never run out. -/
def matchTotalGo : Nat → List Char → List Char → Nat
  | 0, _, _ => 0
  | fuel + 1, a, b =>
    let ijk := findLongestMatch a b
    if ijk.2.2 = 0 then 0
    else
      matchTotalGo fuel (a.take ijk.1) (b.take ijk.2.1)
        + ijk.2.2
        + matchTotalGo fuel (a.drop (ijk.1 + ijk.2.2)) (b.drop (ijk.2.1 + ijk.2.2))

/-- Sum of the matching-block sizes of `SequenceMatcher(None, a, b)`. -/
def matchTotal (a b : List Char) : Nat :=
  matchTotalGo (a.length + 1) a b

/-- `SequenceMatcher.ratio() >= similarity_threshold` at the default
threshold 0.8: `2·M/(|a|+|b|) ≥ 4/5 ⟺ 2·(|a|+|b|) ≤ 5·M`, an exact
rational comparison.  (The Python comparison is on doubles, but
`2.0*M` is exact, `fl(0.8) = fl(4/5)`, rounding is monotone, and for
the short strings compared here a rational strictly below 4/5 is more
than one ulp away, so the float and rational comparisons agree; the
`total == 0` case gives ratio 1.0 in Python and `0 ≤ 0` here, both
true.) -/
def similarAtLeast (a b : List Char) : Bool :=
  2 * (a.length + b.length) ≤ 5 * matchTotal a b

/-- `ContentFilter._is_duplicate(a1, a2)` at the default similarity
threshold 0.8: equal `url` fields (including both empty, as in the
Python `dict.get` comparison), else normalized-title similarity. -/
def isDuplicate (a1 a2 : Article) : Bool :=
  if a1.url = a2.url then true
  else similarAtLeast (normTitle a1.title) (normTitle a2.title)

/-- One step of `ContentFilter.remove_duplicates`: scan the accepted
list for the first duplicate of candidate `c` (the Python inner loop
with `break`); on a match keep the higher score — the candidate
replaces the accepted article (removed via first-occurrence `remove`,
candidate appended) only when its score is strictly higher; with no
match the candidate is appended. -/
def dedupInsert (unique : List Article) (c : Article) : List Article :=
  match unique.find? (fun e => isDuplicate c e) with
  | some e => if e.score < c.score then (unique.erase e) ++ [c] else unique
  | none => unique ++ [c]

/-- `ContentFilter.remove_duplicates(articles)`. -/
def removeDuplicates (articles : List Article) : List Article :=
  if articles.isEmpty then [] else articles.foldl dedupInsert []

/-! ### Sorting, `get_top_articles`, `step2_filter_articles` and the
orchestrator -/

/-- Insert an article into a score-descending list, after any article
of larger-or-equal score: together with `sortByScoreDesc` this is a
stable descending sort, the behaviour of Python's
`list.sort(key=score, reverse=True)` (Timsort is stable). -/
def insertDesc (a : Article) : List Article → List Article
  | [] => [a]
  | b :: l => if b.score ≤ a.score then a :: b :: l else b :: insertDesc a l

/-- Stable sort by `score` descending. -/
def sortByScoreDesc : List Article → List Article
  | [] => []
  | a :: l => insertDesc a (sortByScoreDesc l)

/-- `ContentFilter.filter_all_articles_by_keywords`: keep the articles
that pass the recency filter and then the strict keyword gate (the
Python loop with two `continue`s is a filter by the conjunction). -/
def filterAllArticlesByKeywords (cfg : Config) (nowSec : Int) (l : List Article) :
    List Article :=
  l.filter (fun a => isRecentArticle cfg nowSec a && hasDsMlKeywords true a)

/-- `ContentFilter.filter_by_score_threshold`. -/
def filterByScoreThreshold (cfg : Config) (l : List Article) : List Article :=
  l.filter (fun a => cfg.minScoreThreshold ≤ a.score)

/-- `ContentFilter.get_top_articles`: keyword+recency filtering, score
threshold, deduplication, score-descending sort, then the first
`min(len, FINAL_ARTICLE_COUNT)` articles. -/
def getTopArticles (cfg : Config) (nowSec : Int) (articles : List Article) :
    List Article :=
  if articles.isEmpty then []
  else
    let s1 := filterAllArticlesByKeywords cfg nowSec articles
    let s2 := filterByScoreThreshold cfg s1
    let s3 := removeDuplicates s2
    let s4 := sortByScoreDesc s3
    s4.take (min s4.length cfg.finalArticleCount)

/-- `source_id` starts used for the news category in
`step2_filter_articles`. -/
def newsIdStarts : List String :=
  ["techcrunch", "venturebeat", "mit_tech", "ai_times", "zdnet", "tech42"]

/-- `source_id` starts used for the blog category. -/
def blogIdStarts : List String :=
  ["towards_data", "analytics_vidhya", "kdnuggets", "neptune"]

/-- `source_id` starts used for the company category. -/
def companyIdStarts : List String :=
  ["google_ai", "openai", "naver_d2", "kakao_tech"]

/-- Python `source_id.startswith(tuple_of_news_starts)`. -/
def isNewsSource (sid : String) : Bool :=
  newsIdStarts.any (fun p => decide (p.data <+: sid.data))

/-- Python `source_id.startswith(tuple_of_blog_starts)`. -/
def isBlogSource (sid : String) : Bool :=
  blogIdStarts.any (fun p => decide (p.data <+: sid.data))

/-- Python `source_id.startswith(tuple_of_company_starts)`. -/
def isCompanySource (sid : String) : Bool :=
  companyIdStarts.any (fun p => decide (p.data <+: sid.data))

/-! The quota targets in `step2_filter_articles` are
`max(lo, min(hi, int(target_total * RATIO)))` with float ratios 0.50,
0.30, 0.20 and `target_total = min(10, len(articles)) ∈ {0..10}`.
For every such `target_total`, `int(t * fl(r))` (round-to-nearest
double product, then truncation) equals the exact rational floor
`⌊t·r⌋` — checked by exhaustive analysis of the 33 double products —
so the targets are embedded with exact natural-number division. -/

/-- `max(3, min(5, int(target_total * 0.50)))`. -/
def newsTargetOf (t : Nat) : Nat := max 3 (min 5 (t / 2))

/-- `max(2, min(3, int(target_total * 0.30)))`. -/
def blogTargetOf (t : Nat) : Nat := max 2 (min 3 (3 * t / 10))

/-- `max(1, min(2, int(target_total * 0.20)))`. -/
def companyTargetOf (t : Nat) : Nat := max 1 (min 2 (t / 5))

/-- The news selection of `step2_filter_articles`:
`get_top_articles(news_articles)[:news_target]`. -/
def newsSelection (cfg : Config) (nowSec : Int) (articles : List Article) :
    List Article :=
  (getTopArticles cfg nowSec (articles.filter (fun a => isNewsSource a.sourceId))).take
    (newsTargetOf (min 10 articles.length))

/-- The blog selection of `step2_filter_articles`. -/
def blogSelection (cfg : Config) (nowSec : Int) (articles : List Article) :
    List Article :=
  (getTopArticles cfg nowSec (articles.filter (fun a => isBlogSource a.sourceId))).take
    (blogTargetOf (min 10 articles.length))

/-- The company selection of `step2_filter_articles`. -/
def companySelection (cfg : Config) (nowSec : Int) (articles : List Article) :
    List Article :=
  (getTopArticles cfg nowSec (articles.filter (fun a => isCompanySource a.sourceId))).take
    (companyTargetOf (min 10 articles.length))

/-- `DSNewsPipeline.step2_filter_articles` (the non-exception path):
categorize by `source_id` start, select per category, concatenate,
sort by score descending. -/
def step2FilterArticles (cfg : Config) (nowSec : Int) (articles : List Article) :
    List Article :=
  sortByScoreDesc
    (newsSelection cfg nowSec articles
      ++ blogSelection cfg nowSec articles
      ++ companySelection cfg nowSec articles)

/-- Observable outcome of one `run_full_pipeline` call: the final
article list plus which stages were entered. -/
structure PipelineResult where
  finalArticles : List Article
  ranFilter : Bool
  ranTranslate : Bool
  ranSummarize : Bool
  ranSave : Bool
deriving DecidableEq, Repr

/-- `DSNewsPipeline.run_full_pipeline`: collection is passed in as the
already-materialized batch; the external translation and summarization
stages are abstract list transforms; saving is recorded as a flag.
Zero collected articles short-circuit before filtering; an empty
filter result short-circuits before translation. -/
def runFullPipeline (cfg : Config) (nowSec : Int)
    (translateStage summarizeStage : List Article → List Article)
    (collected : List Article) : PipelineResult :=
  if collected.isEmpty then
    { finalArticles := [], ranFilter := false, ranTranslate := false,
      ranSummarize := false, ranSave := false }
  else
    let filtered := step2FilterArticles cfg nowSec collected
    if filtered.isEmpty then
      { finalArticles := [], ranFilter := true, ranTranslate := false,
        ranSummarize := false, ranSave := false }
    else
      let translated := translateStage filtered
      let summarized := summarizeStage translated
      { finalArticles := summarized, ranFilter := true, ranTranslate := true,
        ranSummarize := true, ranSave := true }

/-! ### Concrete articles used in counterexamples and witnesses -/

/-- A fixed "now": 2025-10-12 00:00:00 UTC. -/
def exNow : Int := utcSeconds ⟨2025, 10, 12, 0, 0, 0, some 0⟩

/-- A qualifying news article: recent, on-topic, above threshold. -/
def mkNews (ttl u : String) (sc : Int) : Article :=
  { title := ttl, content := "machine learning llm", url := u,
    sourceId := "techcrunch_ai", published := "2025-09-15T12:30:00Z", score := sc }

/-- C1 failing input, first article: accepted first. -/
def exA : Article := mkNews "mlnews" "u1" 80

/-- C1 failing input, second article: unrelated title, distinct url. -/
def exB : Article := mkNews "qqqzzz" "u2" 75

/-- C1 failing input, third article: same title as `exA` (similarity 1)
but carrying `exB`'s url; its higher score makes it replace `exA`,
and the `break` skips the comparison against `exB`. -/
def exC : Article := mkNews "mlnews" "u2" 90

/-- Two articles with identical url and scores 80 vs 60 (spec example
scenario 3). -/
def exD1 : Article := mkNews "alpha" "w1" 80

/-- The lower-scored url-duplicate of `exD1`. -/
def exD2 : Article := mkNews "beta2" "w1" 60

/-- Seven pairwise non-duplicate qualifying news articles with
distinct scores. -/
def ex7News : List Article :=
  [mkNews "alpha" "n1" 100, mkNews "bravo" "n2" 99, mkNews "candy" "n3" 98,
   mkNews "dingo" "n4" 97, mkNews "elmer" "n5" 96, mkNews "fudge" "n6" 95,
   mkNews "gizmo" "n7" 94]

/-- Three company-category articles without a parsable published date
(they count towards `target_total` but are dropped by the recency
filter). -/
def ex3Company : List Article :=
  [{ title := "x1", content := "", url := "v1", sourceId := "naver_d2",
     published := "", score := 90 },
   { title := "x2", content := "", url := "v2", sourceId := "naver_d2",
     published := "", score := 90 },
   { title := "x3", content := "", url := "v3", sourceId := "naver_d2",
     published := "", score := 90 }]

/-- Ten collected articles: 7 qualifying news + 3 non-qualifying
company articles, so `target_total = 10`. -/
def ex10 : List Article := ex7News ++ ex3Company

/-- Modelled from the spec: the claim's Quota-Allocator news target
`clamp(round(target_total * ratio), 3, 5)` with ratio 0.5 and
conventional rounding (`round` of Mathlib; at the only contested
point `t = 7` the value `round 3.5 = 4` agrees with Python's
banker's rounding). -/
def specNewsTarget (t : Nat) : Int :=
  min 5 (max 3 (round ((t : ℚ) / 2)))

/-! ## Theorems -/

set_option maxRecDepth 400000

/-- Summing a guarded fold: relates the Python bonus loop to the
closed-form sum over the matching keywords. -/
theorem foldl_add_filter {α : Type} (p : α → Bool) (f : α → Int) :
    ∀ (l : List α) (init : Int),
      l.foldl (fun acc x => if p x then acc + f x else acc) init
        = init + ((l.filter p).map f).sum := by
  intro l
  induction l with
  | nil => intro init; simp
  | cons a l ih =>
    intro init
    by_cases h : p a = true
    · simp [List.foldl_cons, List.filter_cons, h, ih]; ring
    · simp only [Bool.not_eq_true] at h
      simp [List.foldl_cons, List.filter_cons, h, ih]

/-- The penalty loop subtracts the constant once per matching
pattern. -/
theorem foldl_sub_filter {α : Type} (p : α → Bool) (c : Int) :
    ∀ (l : List α) (init : Int),
      l.foldl (fun acc x => if p x then acc - c else acc) init
        = init - c * (l.filter p).length := by
  intro l
  induction l with
  | nil => intro init; simp
  | cons a l ih =>
    intro init
    by_cases h : p a = true
    · simp [List.foldl_cons, List.filter_cons, h, ih]; ring
    · simp only [Bool.not_eq_true] at h
      simp [List.foldl_cons, List.filter_cons, h, ih]

/-- The strict gate as one boolean formula: not excluded AND core
keyword present AND supplementary DS keyword present. -/
theorem hasDsMl_strict_eq (a : Article) :
    hasDsMlKeywords true a
      = (!(excludedTechKeywords.any (fun k => containsKw (gateText a) k))
          && coreKeywords.any (fun k => containsKw (gateText a) k)
          && dsKeywords.any (fun k => containsKw (gateText a) k)) := by
  unfold hasDsMlKeywords
  cases hE : excludedTechKeywords.any (fun k => containsKw (gateText a) k) <;>
    cases hC : coreKeywords.any (fun k => containsKw (gateText a) k) <;>
      simp [hE, hC]

/-- C2: for every title, content and source_id, the Scorer returns
`max 0 (base + Σ bonuses of matching priority keywords − 30 · number of
matching exclusion patterns)`, where `base` is the per-source base
score for a recognized `source_id` and the global default (50)
otherwise; the result is never negative; and the spec's example
(title "머신러닝 구현 가이드" from the unrecognized source "naver_d2",
keywords "가이드" and "구현" present, no exclusions) scores 90. -/
theorem C2_scorer_formula :
    (∀ title content sourceId : String,
      calculateScore title content sourceId
        = max 0 ((((sourceBaseScores.find? (fun kv => kv.1 == sourceId)).map
              (fun kv => kv.2)).getD baseScoreDefault)
            + ((priorityKeywords.filter
                (fun kb => containsKw (lowerStr (title ++ " " ++ content)) kb.1)).map
                (fun kb => kb.2)).sum
            - 30 * ((excludePatterns.filter
                (fun p => containsKw (lowerStr (title ++ " " ++ content)) p)).length : Int))
      ∧ 0 ≤ calculateScore title content sourceId)
    ∧ calculateScore "머신러닝 구현 가이드" "..." "naver_d2" = 90 := by
  constructor
  · intro title content sourceId
    constructor
    · simp only [calculateScore, foldl_add_filter, foldl_sub_filter]
    · exact le_max_left 0 _
  · decide

/-- C6: the Recency Filter returns `true` exactly when the published
timestamp parses, its (local) year reaches the configured minimum year
and its age in whole days relative to `now` does not exceed the
configured maximum; in particular it returns `false` on a missing or
unparseable timestamp (fails closed, totally — no exception escapes).
Moreover a timestamp without a timezone is read as UTC: its absolute
time equals that of the same timestamp with an explicit `+00:00`. -/
theorem C6_recency_gate :
    (∀ (cfg : Config) (nowSec : Int) (a : Article),
      isRecentArticle cfg nowSec a = true
        ↔ ∃ d : PubDate, parsePublished a.published = some d
            ∧ cfg.minPublishYear ≤ d.year
            ∧ Int.fdiv (nowSec - utcSeconds d) 86400 ≤ cfg.maxArticleAgeDays)
    ∧ (∀ y m d h mi s : Nat,
        utcSeconds ⟨y, m, d, h, mi, s, none⟩ = utcSeconds ⟨y, m, d, h, mi, s, some 0⟩) := by
  constructor
  · intro cfg nowSec a
    unfold isRecentArticle
    by_cases hp : a.published = ""
    · have hnone : parsePublished "" = none := rfl
      simp [hp, hnone]
    · rw [if_neg hp]
      cases hmatch : parsePublished a.published with
      | none => simp
      | some d =>
        simp only [Option.some.injEq]
        constructor
        · intro h
          by_cases h1 : d.year < cfg.minPublishYear
          · rw [if_pos h1] at h
            exact absurd h (by simp)
          · rw [if_neg h1] at h
            by_cases h2 : Int.fdiv (nowSec - utcSeconds d) 86400 > cfg.maxArticleAgeDays
            · rw [if_pos h2] at h
              exact absurd h (by simp)
            · exact ⟨d, rfl, not_lt.mp h1, not_lt.mp h2⟩
        · rintro ⟨d', hdd, hy, ha⟩
          subst hdd
          rw [if_neg (not_lt.mpr hy), if_neg (not_lt.mpr ha)]
  · intro y m d h mi s
    rfl

/-- C4 counterexample: `exC4` is not excluded and contains a
supplementary (`DS_KEYWORDS`) keyword, so the claim's OR-semantics
would accept it, yet the gate rejects it (the supplementary list is
checked only after the core-keyword requirement has passed). -/
theorem C4_counterexample :
    excludedTechKeywords.all (fun k => !containsKw (gateText exC4) k) = true
    ∧ dsKeywords.any (fun k => containsKw (gateText exC4) k) = true
    ∧ hasDsMlKeywords true exC4 = false := by
  refine ⟨by decide, by decide, by decide⟩

/-- C4 (amended): the supplementary keyword list is an AND-refinement,
not an OR: the strict gate accepts exactly the articles that are not
excluded AND contain at least one core keyword AND contain at least one
supplementary `DS_KEYWORDS` keyword. -/
theorem C4_keyword_gate_amended :
    ∀ a : Article,
      hasDsMlKeywords true a = true
        ↔ ((∀ k ∈ excludedTechKeywords, ¬containsKw (gateText a) k = true)
            ∧ (∃ k ∈ coreKeywords, containsKw (gateText a) k = true)
            ∧ (∃ k ∈ dsKeywords, containsKw (gateText a) k = true)) := by
  intro a
  rw [hasDsMl_strict_eq]
  simp [Bool.and_eq_true, Bool.not_eq_true, List.any_eq_true, and_assoc]

/-- Membership after one deduplication step comes from the accepted
list or is the candidate. -/
theorem mem_of_mem_dedupInsert {unique : List Article} {c x : Article}
    (h : x ∈ dedupInsert unique c) : x ∈ unique ∨ x = c := by
  unfold dedupInsert at h
  split at h
  next e hf =>
    split at h
    next hs =>
      rcases List.mem_append.mp h with h1 | h1
      · exact Or.inl (List.mem_of_mem_erase h1)
      · exact Or.inr (List.mem_singleton.mp h1)
    next hs => exact Or.inl h
  next hf =>
    rcases List.mem_append.mp h with h1 | h1
    · exact Or.inl h1
    · exact Or.inr (List.mem_singleton.mp h1)

/-- Membership through the deduplication fold. -/
theorem mem_foldl_dedupInsert :
    ∀ (rest : List Article) (acc : List Article) (x : Article),
      x ∈ rest.foldl dedupInsert acc → x ∈ acc ∨ x ∈ rest := by
  intro rest
  induction rest with
  | nil => intro acc x h; exact Or.inl h
  | cons c rest ih =>
    intro acc x h
    rcases ih (dedupInsert acc c) x h with h1 | h1
    · rcases mem_of_mem_dedupInsert h1 with h2 | h2
      · exact Or.inl h2
      · exact Or.inr (by rw [h2]; exact List.mem_cons_self c rest)
    · exact Or.inr (List.mem_cons_of_mem c h1)

/-- Deduplication output articles come from the input. -/
theorem mem_of_mem_removeDuplicates {l : List Article} {x : Article}
    (h : x ∈ removeDuplicates l) : x ∈ l := by
  unfold removeDuplicates at h
  split at h
  · exact absurd h (List.not_mem_nil x)
  · rcases mem_foldl_dedupInsert l [] x h with h1 | h1
    · exact absurd h1 (List.not_mem_nil x)
    · exact h1

/-- Membership under sorted insertion. -/
theorem mem_insertDesc {a x : Article} :
    ∀ {l : List Article}, x ∈ insertDesc a l ↔ x = a ∨ x ∈ l := by
  intro l
  induction l with
  | nil => simp [insertDesc]
  | cons b l ih =>
    unfold insertDesc
    by_cases hb : b.score ≤ a.score
    · rw [if_pos hb]
      simp [List.mem_cons]
    · rw [if_neg hb]
      simp only [List.mem_cons, ih]
      tauto

/-- The stable sort preserves membership. -/
theorem mem_sortByScoreDesc {x : Article} :
    ∀ {l : List Article}, x ∈ sortByScoreDesc l ↔ x ∈ l := by
  intro l
  induction l with
  | nil => simp [sortByScoreDesc]
  | cons a l ih => simp [sortByScoreDesc, mem_insertDesc, ih, List.mem_cons]

/-- An article of `get_top_articles`' output comes from its input and
passed the score-threshold filter. -/
theorem mem_getTopArticles {cfg : Config} {nowSec : Int} {l : List Article}
    {x : Article} (h : x ∈ getTopArticles cfg nowSec l) :
    x ∈ l ∧ cfg.minScoreThreshold ≤ x.score := by
  unfold getTopArticles at h
  split at h
  · exact absurd h (List.not_mem_nil x)
  · have h4 := mem_sortByScoreDesc.mp (List.mem_of_mem_take h)
    have h2 := mem_of_mem_removeDuplicates h4
    have h1 := List.mem_filter.mp h2
    have h0 := List.mem_filter.mp h1.1
    exact ⟨h0.1, of_decide_eq_true h1.2⟩

/-- An article of `step2_filter_articles`' output comes from one of
the three per-category selections. -/
theorem mem_step2_cases {cfg : Config} {nowSec : Int} {articles : List Article}
    {a : Article} (h : a ∈ step2FilterArticles cfg nowSec articles) :
    a ∈ newsSelection cfg nowSec articles
      ∨ a ∈ blogSelection cfg nowSec articles
      ∨ a ∈ companySelection cfg nowSec articles := by
  unfold step2FilterArticles at h
  have h1 := mem_sortByScoreDesc.mp h
  rcases List.mem_append.mp h1 with h2 | h2
  · rcases List.mem_append.mp h2 with h3 | h3
    · exact Or.inl h3
    · exact Or.inr (Or.inl h3)
  · exact Or.inr (Or.inr h2)

/-- C3: every article in the filtering stage's final output scores at
least the configured minimum threshold; no later stage (deduplication,
sorting, count limits, category concatenation) reintroduces an article
below it. -/
theorem C3_threshold_invariant :
    ∀ (cfg : Config) (nowSec : Int) (articles : List Article) (a : Article),
      a ∈ step2FilterArticles cfg nowSec articles →
        cfg.minScoreThreshold ≤ a.score := by
  intro cfg nowSec articles a h
  rcases mem_step2_cases h with h1 | h1 | h1
  · exact (mem_getTopArticles (List.mem_of_mem_take h1)).2
  · exact (mem_getTopArticles (List.mem_of_mem_take h1)).2
  · exact (mem_getTopArticles (List.mem_of_mem_take h1)).2

/-- Witness for C3: a qualifying article in a concrete pipeline run
scores at least the default threshold 70. -/
theorem C3_threshold_invariant_witness :
    defaultConfig.minScoreThreshold ≤ (mkNews "alpha" "n1" 100).score :=
  C3_threshold_invariant defaultConfig exNow [mkNews "alpha" "n1" 100]
    (mkNews "alpha" "n1" 100) (by decide)

/-- C10: every article in the filtering stage's output has a
`source_id` starting with one of the three hard-coded category lists —
so an article from a source outside them (in particular the configured
sources wired_ai, huggingface_blog, distill, google_developers,
aws_ml, microsoft_ai, nvidia_blog) is silently absent from the output
regardless of its score or recency. -/
theorem C10_category_split_excludes_sources :
    (∀ (cfg : Config) (nowSec : Int) (articles : List Article) (a : Article),
      a ∈ step2FilterArticles cfg nowSec articles →
        isNewsSource a.sourceId = true ∨ isBlogSource a.sourceId = true
          ∨ isCompanySource a.sourceId = true)
    ∧ (["wired_ai", "huggingface_blog", "distill", "google_developers",
        "aws_ml", "microsoft_ai", "nvidia_blog"].all
          (fun sid => !isNewsSource sid && !isBlogSource sid && !isCompanySource sid)
        = true) := by
  constructor
  · intro cfg nowSec articles a h
    rcases mem_step2_cases h with h1 | h1 | h1
    · have h2 := (mem_getTopArticles (List.mem_of_mem_take h1)).1
      exact Or.inl (List.mem_filter.mp h2).2
    · have h2 := (mem_getTopArticles (List.mem_of_mem_take h1)).1
      exact Or.inr (Or.inl (List.mem_filter.mp h2).2)
    · have h2 := (mem_getTopArticles (List.mem_of_mem_take h1)).1
      exact Or.inr (Or.inr (List.mem_filter.mp h2).2)
  · decide

/-- Witness for C10: the categorization fact instantiated on a
concrete pipeline run. -/
theorem C10_category_split_witness :
    isNewsSource (mkNews "alpha" "n1" 100).sourceId = true
      ∨ isBlogSource (mkNews "alpha" "n1" 100).sourceId = true
      ∨ isCompanySource (mkNews "alpha" "n1" 100).sourceId = true :=
  C10_category_split_excludes_sources.1 defaultConfig exNow
    [mkNews "alpha" "n1" 100] (mkNews "alpha" "n1" 100) (by decide)

/-- A score dominated inside the accepted list stays dominated after a
deduplication step: on a replacement the removed article's score is
strictly below the candidate's. -/
theorem dedupInsert_dominates {unique : List Article} {c : Article} {s : Int}
    (h : ∃ y ∈ unique, s ≤ y.score) :
    ∃ y ∈ dedupInsert unique c, s ≤ y.score := by
  obtain ⟨y, hy, hs⟩ := h
  unfold dedupInsert
  split
  next e hf =>
    split
    next hlt =>
      by_cases hye : y = e
      · refine ⟨c, by simp, ?_⟩
        subst hye
        exact le_of_lt (lt_of_le_of_lt hs hlt)
      · exact ⟨y, List.mem_append_left _ ((List.mem_erase_of_ne hye).mpr hy), hs⟩
    next hlt => exact ⟨y, hy, hs⟩
  next hf => exact ⟨y, List.mem_append_left _ hy, hs⟩

/-- Score domination is preserved through the whole deduplication
fold. -/
theorem foldl_dedup_dominates :
    ∀ (rest acc : List Article) (s : Int),
      (∃ y ∈ acc, s ≤ y.score) →
      ∃ y ∈ rest.foldl dedupInsert acc, s ≤ y.score := by
  intro rest
  induction rest with
  | nil => intro acc s h; exact h
  | cons c rest ih =>
    intro acc s h
    exact ih _ _ (dedupInsert_dominates h)

/-- The candidate of a deduplication step is dominated by some member
of the resulting accepted list: it is kept, replaces a lower-scored
duplicate, or is dropped in favour of a duplicate of at least its
score. -/
theorem dedupInsert_cand_dominated (unique : List Article) (c : Article) :
    ∃ y ∈ dedupInsert unique c, c.score ≤ y.score := by
  unfold dedupInsert
  split
  next e hf =>
    split
    next hlt => exact ⟨c, by simp, le_refl _⟩
    next hlt => exact ⟨e, List.mem_of_find?_eq_some hf, not_lt.mp hlt⟩
  next hf => exact ⟨c, by simp, le_refl _⟩

/-- Every article fed to the deduplication fold is dominated by some
survivor. -/
theorem foldl_dedup_all_dominated :
    ∀ (rest acc : List Article) (x : Article),
      (x ∈ acc ∨ x ∈ rest) →
      ∃ y ∈ rest.foldl dedupInsert acc, x.score ≤ y.score := by
  intro rest
  induction rest with
  | nil =>
    intro acc x h
    rcases h with h | h
    · exact ⟨x, h, le_refl _⟩
    · exact absurd h (List.not_mem_nil x)
  | cons c rest ih =>
    intro acc x h
    rcases h with h | h
    · exact foldl_dedup_dominates rest (dedupInsert acc c) _
        (dedupInsert_dominates ⟨x, h, le_refl _⟩)
    · rcases List.mem_cons.mp h with h | h
      · subst h
        exact foldl_dedup_dominates rest (dedupInsert acc x) _
          (dedupInsert_cand_dominated acc x)
      · exact ih (dedupInsert acc c) x (Or.inr h)

/-- C7: on a duplicate match the higher score survives — the step
replaces the matched accepted article exactly when the candidate's
score is strictly higher and drops the candidate otherwise — and
consequently every input article (in particular every member dropped
from a duplicate group) is dominated in score by some surviving
article of the deduplication output. -/
theorem C7_dedup_winner_has_max_score :
    (∀ (articles : List Article) (x : Article),
      x ∈ articles → ∃ y ∈ removeDuplicates articles, x.score ≤ y.score)
    ∧ (∀ (unique : List Article) (c e : Article),
        unique.find? (fun x => isDuplicate c x) = some e →
          dedupInsert unique c
            = if e.score < c.score then unique.erase e ++ [c] else unique) := by
  constructor
  · intro articles x hx
    unfold removeDuplicates
    split
    next hemp =>
      rw [List.isEmpty_iff.mp hemp] at hx
      exact absurd hx (List.not_mem_nil x)
    next hemp => exact foldl_dedup_all_dominated articles [] x (Or.inr hx)
  · intro unique c e hf
    unfold dedupInsert
    rw [hf]

/-- Witness for C7: of two articles with the same url and scores 80
vs 60, a survivor dominates the dropped one (spec example 3). -/
theorem C7_dedup_winner_witness :
    ∃ y ∈ removeDuplicates [exD1, exD2], exD2.score ≤ y.score :=
  C7_dedup_winner_has_max_score.1 [exD1, exD2] exD2 (by decide)

/-- C1 (code-bug evidence): on the concrete input `[exA, exB, exC]`
the deduplication output — and the filtering stage's final output —
contains the two distinct articles `exB` and `exC`, which carry the
same non-empty url "u2": when `exC` (duplicate of `exA` by identical
title, score 90 > 80) replaces `exA`, the `break` skips the comparison
of `exC` against `exB`. -/
theorem C1_url_duplicate_survives :
    removeDuplicates [exA, exB, exC] = [exB, exC]
    ∧ step2FilterArticles defaultConfig exNow [exA, exB, exC] = [exC, exB]
    ∧ exB.url = exC.url ∧ exB.url ≠ "" ∧ exB ≠ exC := by
  refine ⟨by decide, by decide, by decide, by decide, by decide⟩

/-- C5 counterexample: with 7 collected news articles, all 7 of which
qualify (survive filtering and deduplication), the code selects only
`max(3, min(5, int(7·0.5))) = 3` of them, while the claim's formula
`clamp(round(7·0.5), 3, 5) = 4` demands 4: the code truncates
(`int`), it does not round. -/
theorem C5_quota_counterexample :
    (getTopArticles defaultConfig exNow ex7News).length = 7
    ∧ (step2FilterArticles defaultConfig exNow ex7News).length = 3
    ∧ specNewsTarget 7 = 4 := by
  refine ⟨by decide, by decide, ?_⟩
  norm_num [specNewsTarget, round_eq]

/-- C5 (amended): the per-category target is
`clamp(int(target_total · ratio), category_min, category_max)` — with
`int` truncation, not rounding — with bounds news 3..5, blog 2..3,
company 1..2; each per-category selection never exceeds the category
max; and in the spec's example (news with 7 qualifying articles among
10 collected, so target_total = 10 and ratio 0.5 give target 5) the
news selection is exactly the top 5 by score. -/
theorem C5_quota_allocator_amended :
    (∀ (cfg : Config) (nowSec : Int) (articles : List Article),
      (newsSelection cfg nowSec articles).length ≤ 5
      ∧ (blogSelection cfg nowSec articles).length ≤ 3
      ∧ (companySelection cfg nowSec articles).length ≤ 2)
    ∧ (∀ t : Nat,
        newsTargetOf t = min 5 (max 3 (t / 2))
        ∧ blogTargetOf t = min 3 (max 2 (3 * t / 10))
        ∧ companyTargetOf t = min 2 (max 1 (t / 5)))
    ∧ newsSelection defaultConfig exNow ex10
        = [mkNews "alpha" "n1" 100, mkNews "bravo" "n2" 99, mkNews "candy" "n3" 98,
           mkNews "dingo" "n4" 97, mkNews "elmer" "n5" 96] := by
  refine ⟨?_, ?_, by decide⟩
  · intro cfg nowSec articles
    refine ⟨?_, ?_, ?_⟩
    · exact le_trans (List.length_take_le _ _)
        (by unfold newsTargetOf; omega)
    · exact le_trans (List.length_take_le _ _)
        (by unfold blogTargetOf; omega)
    · exact le_trans (List.length_take_le _ _)
        (by unfold companyTargetOf; omega)
  · intro t
    refine ⟨?_, ?_, ?_⟩ <;>
      simp only [newsTargetOf, blogTargetOf, companyTargetOf] <;> omega

/-- C8: with zero collected articles the orchestrator short-circuits —
the final result is empty and the filtering, translation,
summarization and save stages are never entered; the run returns
normally (no exception) for every choice of external stages. -/
theorem C8_empty_collection_short_circuits :
    ∀ (cfg : Config) (nowSec : Int)
      (translateStage summarizeStage : List Article → List Article),
      (runFullPipeline cfg nowSec translateStage summarizeStage []).finalArticles = []
      ∧ (runFullPipeline cfg nowSec translateStage summarizeStage []).ranFilter = false
      ∧ (runFullPipeline cfg nowSec translateStage summarizeStage []).ranTranslate = false
      ∧ (runFullPipeline cfg nowSec translateStage summarizeStage []).ranSummarize = false
      ∧ (runFullPipeline cfg nowSec translateStage summarizeStage []).ranSave = false := by
  intro cfg nowSec t s
  exact ⟨rfl, rfl, rfl, rfl, rfl⟩

/-- C9: the Scorer is deterministic — two calls on equal inputs return
equal values (the embedding of `calculate_score` is a pure function of
title, content and source_id; no randomness or external calls). -/
theorem C9_scorer_deterministic :
    ∀ ta ca sa tb cb sb : String, ta = tb → ca = cb → sa = sb →
      calculateScore ta ca sa = calculateScore tb cb sb := by
  intro ta ca sa tb cb sb ht hc hs
  rw [ht, hc, hs]

/-- Witness for C9 at a concrete input. -/
theorem C9_scorer_deterministic_witness :
    calculateScore "가이드" "" "tech42" = calculateScore "가이드" "" "tech42" :=
  C9_scorer_deterministic "가이드" "" "tech42" "가이드" "" "tech42" rfl rfl rfl

end DSNews
